import Mathlib

/-!
Shallow embedding of the asyncNetwork repository (server.py, client.py):
the session registry and relay/discovery handlers of `Server`, the
broadcast-discovery listener of `Network`, the client-side discovery
reply handler, and the `NetworkEventManager` pub/sub dispatcher.
Machine-checked statements of the specification's claims follow the
definitions.
-/

namespace AsyncNetwork

/-- Dynamic scalar values carried in message payloads (Python objects). -/
inductive Value where
  | str (s : String) : Value
  | nat (n : Nat) : Value
  | bool (b : Bool) : Value
  deriving DecidableEq, Repr

/-- A payload handed to `sio.emit`: either a bare value or a dict. -/
inductive Payload where
  | val (v : Value) : Payload
  | dict (fields : List (String × Value)) : Payload
  deriving DecidableEq, Repr

/-- Observable transport-layer effects of a server handler:
an `emit(event, payload, to=sid)` call or a forced `sio.disconnect(sid)`. -/
inductive Action where
  | emit (event : Value) (payload : Payload) (target : String)
  | forceDisconnect (sid : String)
  deriving DecidableEq, Repr

/-- server.py: `MAX_CLIENTS = 2`. -/
def MAX_CLIENTS : Nat := 2

/-- server.py: `NETWORK_INFO = "NET_INFO"`. -/
def NETWORK_INFO : String := "NET_INFO"

/-- server.py: `NETWORK_WARNING = "NET_WARNING"`. -/
def NETWORK_WARNING : String := "NET_WARNING"

/-- server.py: `NETWORK_DISCOVER = "NET_DISCOVER"`. -/
def NETWORK_DISCOVER : String := "NET_DISCOVER"

/-- server.py: `BROADCAST_MESSAGE = "[Tictactoe Server]"` (the magic string). -/
def BROADCAST_MESSAGE : String := "[Tictactoe Server]"

/-- Mutable state of a `Server` instance: session name, session port and
the `connected_clients` list of socket ids. -/
structure ServerState where
  session_name : String
  session_port : Nat
  connected_clients : List String
  deriving DecidableEq, Repr

/-- The f-string emitted by the connect handler. -/
def connectMsg (sid : String) : String :=
  s!"[Server-Connect] User {sid} connected"

/-- The f-string emitted by the disconnect handler. -/
def disconnectMsg (sid : String) : String :=
  s!"[Server-Disconnect] User {sid} disconnected"

/-- server.py `connect(sid, environ)` handler: below capacity, notify the
first existing peer (if any) and append `sid`; at capacity, warn `sid` and
forcibly disconnect it. Returns the new state and the emitted actions. -/
def connect (s : ServerState) (sid : String) : ServerState × List Action :=
  if s.connected_clients.length < MAX_CLIENTS then
    ({ s with connected_clients := s.connected_clients ++ [sid] },
      match s.connected_clients with
      | [] => []
      | c :: _ => [Action.emit (.str NETWORK_INFO) (.val (.str (connectMsg sid))) c])
  else
    (s, [Action.emit (.str NETWORK_WARNING)
          (.val (.str "[Server-Connect] Disconnected due to exceeded connections")) sid,
         Action.forceDisconnect sid])

/-- server.py `disconnect(sid)` handler: compute the clients other than
`sid`, notify the first of them (if any), then `connected_clients.remove(sid)`
(`remove` of an absent element raises `ValueError`, which the handler catches,
leaving the list unchanged — `List.erase` has exactly that effect). -/
def disconnect (s : ServerState) (sid : String) : ServerState × List Action :=
  ({ s with connected_clients := s.connected_clients.erase sid },
    match s.connected_clients.filter (fun c => c != sid) with
    | [] => []
    | c :: _ => [Action.emit (.str NETWORK_INFO) (.val (.str (disconnectMsg sid))) c])

/-- server.py `discover(sid, data)` handler (`data` is the probing client's
host hint): if `len(connected_clients) < MAX_CLIENTS + 1`, reply with the
connectable record, else reply `{"connectable": False}`. -/
def discover (s : ServerState) (sid : String) (hostHint : String) : ServerState × List Action :=
  if s.connected_clients.length < MAX_CLIENTS + 1 then
    (s, [Action.emit (.str NETWORK_DISCOVER)
          (.dict [("connectable", .bool true),
                  ("player_count", .nat s.connected_clients.length),
                  ("session_name", .str s.session_name),
                  ("session_host", .str hostHint),
                  ("session_port", .nat s.session_port)]) sid])
  else
    (s, [Action.emit (.str NETWORK_DISCOVER) (.dict [("connectable", .bool false)]) sid])

/-- server.py `relay(sid, data)` handler: reject envelopes missing
`event_type` or `data` with a warning to the sender; otherwise forward
`data["data"]` under event name `data["event_type"]` to the first client
other than the sender, or warn the sender when there is none. -/
def relay (s : ServerState) (sid : String) (env : List (String × Value)) :
    ServerState × List Action :=
  match env.lookup "event_type", env.lookup "data" with
  | some et, some d =>
    match s.connected_clients.filter (fun c => c != sid) with
    | c :: _ => (s, [Action.emit et (.val d) c])
    | [] => (s, [Action.emit (.str NETWORK_WARNING)
                  (.val (.str "[Server-Packet] No clients available to send")) sid])
  | _, _ => (s, [Action.emit (.str NETWORK_WARNING)
                  (.val (.str "[Server-Packet] Invalid data format")) sid])

/-- A connection-lifecycle event delivered to the server by the transport. -/
inductive NetEvent where
  | conn (sid : String)
  | disc (sid : String)
  deriving DecidableEq, Repr

/-- State reached after one lifecycle event. -/
def applyEvent (s : ServerState) (e : NetEvent) : ServerState :=
  match e with
  | .conn sid => (connect s sid).1
  | .disc sid => (disconnect s sid).1

/-- State reached after a sequence of lifecycle events. -/
def runEvents (s : ServerState) (evs : List NetEvent) : ServerState :=
  evs.foldl applyEvent s

/-- Fresh server state at process start: empty `connected_clients`. -/
def initState (name : String) (port : Nat) : ServerState :=
  { session_name := name, session_port := port, connected_clients := [] }

/-- client.py: an entry of `broadcast_servers`, `{"host": ..., "port": ...}`. -/
structure BroadcastServer where
  host : String
  port : String
  deriving DecidableEq, Repr

/-- client.py `discover_servers.listen`, one received datagram
`(decoded data, source host)`: append a candidate exactly when
`data[:18] == SERVER_BROADCAST` and no known candidate shares the host;
its port is `data[len(SERVER_BROADCAST) + 1:]`. -/
def listenStep (servers : List BroadcastServer) (dgram : String × String) :
    List BroadcastServer :=
  if (dgram.1.take 18 == BROADCAST_MESSAGE)
      && servers.all (fun server => server.host != dgram.2) then
    servers ++ [⟨dgram.2, dgram.1.drop (BROADCAST_MESSAGE.length + 1)⟩]
  else
    servers

/-- The candidate list produced by one discovery window over the received
datagrams, starting from an empty `broadcast_servers` list. -/
def listenRun (dgrams : List (String × String)) : List BroadcastServer :=
  dgrams.foldl listenStep []

/-- client.py: an entry of `potential_servers`. -/
structure PotentialServer where
  player_count : Value
  session_name : Value
  session_host : Value
  session_port : Value
  deriving DecidableEq, Repr

/-- client.py `discover(data)` handler: `data["connectable"]` is looked up
unguarded; when it equals `True`, a `try` block appends a `PotentialServer`
(a missing field raises `KeyError`, caught and logged); otherwise the
failure log line reads `data["session_port"]` unguarded, so a missing
`session_port` key raises `KeyError` out of the handler (`Except.error`). -/
def client_discover (ps : List PotentialServer) (data : List (String × Value)) :
    Except String (List PotentialServer) :=
  match data.lookup "connectable" with
  | none => .error "connectable"
  | some v =>
    if v = Value.bool true then
      match data.lookup "player_count", data.lookup "session_name",
            data.lookup "session_host", data.lookup "session_port" with
      | some pc, some sn, some sh, some sp => .ok (ps ++ [⟨pc, sn, sh, sp⟩])
      | _, _, _, _ => .ok ps
    else
      match data.lookup "session_port" with
      | some _ => .ok ps
      | none => .error "session_port"

/-- client.py `NetworkEventManager._listeners` as an association list from
event type to the ordered callback list. -/
def Listeners (κ : Type) : Type := List (String × List κ)

/-- Replace the binding of `key` (first occurrence) or append it:
the effect of a Python dict assignment on the association list. -/
def updateAssoc {κ : Type} (ls : Listeners κ) (key : String) (v : List κ) : Listeners κ :=
  match ls with
  | [] => [(key, v)]
  | (k, w) :: rest =>
    if k = key then (key, v) :: rest else (k, w) :: updateAssoc rest key v

/-- client.py `NetworkEventManager.add_listener`: ensure the key exists
(defaulting to `[]`) and append the callback to its list. -/
def add_listener {κ : Type} (ls : Listeners κ) (event_type : String) (cb : κ) :
    Listeners κ :=
  updateAssoc ls event_type (((List.lookup event_type ls).getD []) ++ [cb])

/-- client.py `NetworkEventManager.trigger_event`: return the callbacks
invoked, in order, and whether the "no listeners" warning was logged. -/
def trigger_event {κ : Type} (ls : Listeners κ) (event_type : String) :
    List κ × Bool :=
  match List.lookup event_type ls with
  | some cbs => (cbs, false)
  | none => ([], true)

/-- Registry built by a sequence of `add_listener` registrations. -/
def register_all {κ : Type} (ls : Listeners κ) (regs : List (String × κ)) :
    Listeners κ :=
  regs.foldl (fun a r => add_listener a r.1 r.2) ls

/-- One lifecycle event preserves the capacity bound on the registry. -/
lemma applyEvent_length_le (s : ServerState) (e : NetEvent)
    (h : s.connected_clients.length ≤ MAX_CLIENTS) :
    (applyEvent s e).connected_clients.length ≤ MAX_CLIENTS := by
  cases e with
  | conn sid =>
    simp only [applyEvent, connect]
    split
    · next hlt =>
      simp only [List.length_append, List.length_singleton]
      omega
    · exact h
  | disc sid =>
    simp only [applyEvent, disconnect]
    exact le_trans (List.Sublist.length_le (List.erase_sublist _ _)) h

/-- Any event sequence from a capacity-respecting state stays within capacity. -/
lemma runEvents_length_le (evs : List NetEvent) (s : ServerState)
    (h : s.connected_clients.length ≤ MAX_CLIENTS) :
    (runEvents s evs).connected_clients.length ≤ MAX_CLIENTS := by
  induction evs generalizing s with
  | nil => exact h
  | cons e evs ih => exact ih _ (applyEvent_length_le s e h)

/-- C1: for every sequence of connect and disconnect events applied to an
initially empty session registry, the length of `connected_clients` never
exceeds `MAX_CLIENTS` (= 2) at any point (every reachable state is
`runEvents` of some prefix of the event sequence). -/
theorem connected_clients_le_max (name : String) (port : Nat)
    (evs : List NetEvent) :
    (runEvents (initState name port) evs).connected_clients.length ≤ MAX_CLIENTS :=
  runEvents_length_le evs _ (by simp [initState])

/-- C2: a discovery query is answered with the connectable record
(`player_count` = current occupancy, `session_host` = the host hint) exactly
when occupancy is strictly below `MAX_CLIENTS + 1`, and with
`{"connectable": False}` otherwise; in particular at occupancy 2 (server
full) the reply is still connectable (see the witness). -/
theorem discover_reply_spec (s : ServerState) (sid hint : String) :
    (s.connected_clients.length < MAX_CLIENTS + 1 →
      discover s sid hint = (s, [Action.emit (.str NETWORK_DISCOVER)
        (.dict [("connectable", .bool true),
                ("player_count", .nat s.connected_clients.length),
                ("session_name", .str s.session_name),
                ("session_host", .str hint),
                ("session_port", .nat s.session_port)]) sid])) ∧
    (MAX_CLIENTS + 1 ≤ s.connected_clients.length →
      discover s sid hint = (s, [Action.emit (.str NETWORK_DISCOVER)
        (.dict [("connectable", .bool false)]) sid])) := by
  constructor
  · intro h
    simp [discover, h]
  · intro h
    simp [discover, Nat.not_lt.mpr h]

/-- Witness for C2 at occupancy 2 = `MAX_CLIENTS`: the reply is connectable
with `player_count` 2, exercising the exact `< MAX_CLIENTS + 1` boundary. -/
theorem discover_reply_spec_witness :
    discover ⟨"game", 50000, ["a", "b"]⟩ "probe" "10.0.0.5" =
      (⟨"game", 50000, ["a", "b"]⟩, [Action.emit (.str NETWORK_DISCOVER)
        (.dict [("connectable", .bool true),
                ("player_count", .nat 2),
                ("session_name", .str "game"),
                ("session_host", .str "10.0.0.5"),
                ("session_port", .nat 50000)]) "probe"]) :=
  (discover_reply_spec ⟨"game", 50000, ["a", "b"]⟩ "probe" "10.0.0.5").1 (by decide)

/-- C5: a connect event arriving with the registry at capacity leaves the
state unchanged and produces exactly the capacity warning to the new
connection followed by its forced disconnect. -/
theorem connect_at_capacity_rejects (s : ServerState) (sid : String)
    (h : s.connected_clients.length = MAX_CLIENTS) :
    connect s sid = (s, [Action.emit (.str NETWORK_WARNING)
      (.val (.str "[Server-Connect] Disconnected due to exceeded connections")) sid,
      Action.forceDisconnect sid]) := by
  simp [connect, h]

/-- Witness for C5: a third peer connecting to `["a", "b"]` is warned and
forcibly disconnected, with the registry untouched. -/
theorem connect_at_capacity_rejects_witness :
    connect ⟨"game", 50000, ["a", "b"]⟩ "c" =
      (⟨"game", 50000, ["a", "b"]⟩, [Action.emit (.str NETWORK_WARNING)
        (.val (.str "[Server-Connect] Disconnected due to exceeded connections")) "c",
        Action.forceDisconnect "c"]) :=
  connect_at_capacity_rejects ⟨"game", 50000, ["a", "b"]⟩ "c" (by decide)

/-- C10: the relay handler and the discovery-query handler never mutate
`connected_clients` (nor any other server state): for every sender, payload
and registry state, the state component of their result is the input state. -/
theorem relay_discover_preserve_registry (s : ServerState) (sid hint : String)
    (env : List (String × Value)) :
    (discover s sid hint).1 = s ∧ (relay s sid env).1 = s := by
  constructor
  · unfold discover
    split <;> rfl
  · unfold relay
    rcases he : env.lookup "event_type" with _ | et <;>
      rcases hd : env.lookup "data" with _ | d <;>
      simp only
    rcases hf : s.connected_clients.filter (fun c => c != sid) with _ | ⟨c, rest⟩ <;>
      simp only

/-- A list of length at most two containing two distinct elements is exactly
one of the two orderings of that pair. -/
lemma pair_of_two_mem {l : List String} {a b : String} (ha : a ∈ l) (hb : b ∈ l)
    (hne : a ≠ b) (hlen : l.length ≤ 2) : l = [a, b] ∨ l = [b, a] := by
  match l with
  | [] => simp at ha
  | [x] =>
    simp at ha hb
    exact absurd (ha.trans hb.symm) hne
  | [x, y] =>
    simp at ha hb
    rcases ha with rfl | rfl
    · rcases hb with rfl | rfl
      · exact absurd rfl hne
      · exact Or.inl rfl
    · rcases hb with rfl | rfl
      · exact Or.inr rfl
      · exact absurd rfl hne
  | x :: y :: z :: rest =>
    simp at hlen

/-- C3: a relay envelope carrying both `event_type` and `data`, sent by a
connected peer `a` while a distinct peer `b` is connected (registry within
its capacity bound), is delivered to `b` exactly once under the envelope's
event name with the envelope's data, and nothing is sent back to `a`. -/
theorem relay_delivers_to_other_peer (s : ServerState) (a b : String)
    (env : List (String × Value)) (et d : Value)
    (hma : a ∈ s.connected_clients) (hmb : b ∈ s.connected_clients)
    (hne : a ≠ b) (hlen : s.connected_clients.length ≤ MAX_CLIENTS)
    (het : env.lookup "event_type" = some et) (hd : env.lookup "data" = some d) :
    relay s a env = (s, [Action.emit et (.val d) b]) := by
  have hba : (b != a) = true := bne_iff_ne.mpr (Ne.symm hne)
  have hfilter : s.connected_clients.filter (fun c => c != a) = [b] := by
    rcases pair_of_two_mem hma hmb hne hlen with h | h <;>
      simp [h, List.filter, hba]
  simp [relay, het, hd, hfilter]

/-- Witness for C3: `{"event_type": "CHAT", "data": "hello"}` from "A" with
clients `["A", "B"]` reaches "B" as event "CHAT" carrying "hello" only. -/
theorem relay_delivers_to_other_peer_witness :
    relay ⟨"game", 50000, ["A", "B"]⟩ "A"
        [("event_type", .str "CHAT"), ("data", .str "hello")] =
      (⟨"game", 50000, ["A", "B"]⟩,
        [Action.emit (.str "CHAT") (.val (.str "hello")) "B"]) :=
  relay_delivers_to_other_peer ⟨"game", 50000, ["A", "B"]⟩ "A" "B"
    [("event_type", .str "CHAT"), ("data", .str "hello")] (.str "CHAT") (.str "hello")
    (by decide) (by decide) (by decide) (by decide) (by decide) (by decide)

/-- C4: a relay envelope missing `event_type` or `data` is delivered to no
peer; the sender gets exactly one warning, whatever the registry state. -/
theorem relay_invalid_envelope_warns_sender (s : ServerState) (sid : String)
    (env : List (String × Value))
    (h : env.lookup "event_type" = none ∨ env.lookup "data" = none) :
    relay s sid env = (s, [Action.emit (.str NETWORK_WARNING)
      (.val (.str "[Server-Packet] Invalid data format")) sid]) := by
  rcases h with h | h
  · simp [relay, h]
  · rcases he : env.lookup "event_type" with _ | et <;> simp [relay, he, h]

/-- Witness for C4: an envelope with only `data` yields the single
format warning to the sender and no delivery to the other peer. -/
theorem relay_invalid_envelope_warns_sender_witness :
    relay ⟨"game", 50000, ["A", "B"]⟩ "A" [("data", .str "hello")] =
      (⟨"game", 50000, ["A", "B"]⟩, [Action.emit (.str NETWORK_WARNING)
        (.val (.str "[Server-Packet] Invalid data format")) "A"]) :=
  relay_invalid_envelope_warns_sender ⟨"game", 50000, ["A", "B"]⟩ "A"
    [("data", .str "hello")] (Or.inl (by decide))

/-- C6 counterexample: disconnecting the absent id "b" while "a" is
connected leaves the registry unchanged and does not fail, but — contrary
to the claim that a no-op emits no event — it emits one informational
"peer disconnected" event to "a" (the handler notifies before `remove`
raises). -/
theorem disconnect_absent_emits_cex :
    ("b" ∉ (["a"] : List String)) ∧
    disconnect ⟨"game", 50000, ["a"]⟩ "b" =
      (⟨"game", 50000, ["a"]⟩,
        [Action.emit (.str NETWORK_INFO) (.val (.str (disconnectMsg "b"))) "a"]) :=
  ⟨by decide, rfl⟩

/-- C6 amended: for an id absent from `connected_clients`, `disconnect`
does not fail and leaves the registry unchanged, but it still emits one
informational "peer disconnected" event to the first connected peer when
the registry is nonempty (and no event only when it is empty). -/
theorem disconnect_absent_amended (s : ServerState) (sid : String)
    (h : sid ∉ s.connected_clients) :
    (disconnect s sid).1 = s ∧
    (disconnect s sid).2 = (match s.connected_clients with
      | [] => []
      | c :: _ => [Action.emit (.str NETWORK_INFO)
          (.val (.str (disconnectMsg sid))) c]) := by
  have hf : s.connected_clients.filter (fun c => c != sid) = s.connected_clients :=
    List.filter_eq_self.mpr (fun c hc => bne_iff_ne.mpr (fun hEq => h (hEq ▸ hc)))
  have he : s.connected_clients.erase sid = s.connected_clients :=
    List.erase_of_not_mem h
  constructor
  · simp [disconnect, he]
  · simp only [disconnect, hf]

/-- Witness for C6 amended: removing absent "b" with clients `["a"]` keeps
the state and emits the informational event to "a". -/
theorem disconnect_absent_amended_witness :
    (disconnect ⟨"game", 50000, ["a"]⟩ "b").1 = ⟨"game", 50000, ["a"]⟩ ∧
    (disconnect ⟨"game", 50000, ["a"]⟩ "b").2 =
      [Action.emit (.str NETWORK_INFO) (.val (.str (disconnectMsg "b"))) "a"] := by
  have h := disconnect_absent_amended ⟨"game", 50000, ["a"]⟩ "b" (by decide)
  exact ⟨h.1, h.2⟩

/-- Looking up after a dict assignment: the assigned key reads back the new
value, every other key is untouched. -/
lemma lookup_updateAssoc {κ : Type} (ls : Listeners κ) (key et : String)
    (v : List κ) :
    List.lookup et (updateAssoc ls key v) =
      if et = key then some v else List.lookup et ls := by
  induction ls with
  | nil =>
    by_cases h : et = key
    · simp [updateAssoc, List.lookup, h]
    · simp [updateAssoc, List.lookup, h, beq_eq_false_iff_ne.mpr h]
  | cons hd tl ih =>
    obtain ⟨k, w⟩ := hd
    by_cases hk : k = key
    · subst hk
      by_cases h : et = k
      · simp [updateAssoc, List.lookup, h]
      · simp [updateAssoc, List.lookup, h, beq_eq_false_iff_ne.mpr h]
    · by_cases h : et = k
      · subst h
        simp [updateAssoc, List.lookup, hk, Ne.symm hk]
      · simp [updateAssoc, List.lookup, hk, h, ih, beq_eq_false_iff_ne.mpr h]

/-- Effect of one `add_listener` on a later lookup. -/
lemma lookup_add_listener {κ : Type} (ls : Listeners κ) (key : String) (cb : κ)
    (et : String) :
    List.lookup et (add_listener ls key cb) =
      if et = key then some (((List.lookup key ls).getD []) ++ [cb])
      else List.lookup et ls := by
  simp [add_listener, lookup_updateAssoc]

/-- The callback list accumulated by a registration sequence: the starting
list's callbacks followed by the registrations for that type, in order. -/
lemma lookup_register_all {κ : Type} (regs : List (String × κ)) (ls : Listeners κ)
    (et : String) :
    (List.lookup et (register_all ls regs)).getD [] =
      ((List.lookup et ls).getD []) ++
        (regs.filter (fun r => r.1 == et)).map Prod.snd := by
  induction regs generalizing ls with
  | nil => simp [register_all]
  | cons r regs ih =>
    simp only [register_all, List.foldl_cons, List.filter_cons]
    by_cases h : r.1 = et
    · have : (r.1 == et) = true := beq_iff_eq.mpr h
      rw [show (regs.foldl (fun a r => add_listener a r.1 r.2) (add_listener ls r.1 r.2)) =
            register_all (add_listener ls r.1 r.2) regs from rfl,
          ih, lookup_add_listener, if_pos h.symm]
      subst h
      simp
    · have : (r.1 == et) = false := beq_eq_false_iff_ne.mpr h
      rw [show (regs.foldl (fun a r => add_listener a r.1 r.2) (add_listener ls r.1 r.2)) =
            register_all (add_listener ls r.1 r.2) regs from rfl,
          ih, lookup_add_listener, if_neg (fun hc => h hc.symm)]
      simp [this]

/-- A registration sequence leaves a key unbound exactly when it was unbound
before and no registration targeted it. -/
lemma lookup_register_all_none {κ : Type} (regs : List (String × κ))
    (ls : Listeners κ) (et : String) :
    List.lookup et (register_all ls regs) = none ↔
      List.lookup et ls = none ∧ regs.filter (fun r => r.1 == et) = [] := by
  induction regs generalizing ls with
  | nil => simp [register_all]
  | cons r regs ih =>
    simp only [register_all, List.foldl_cons, List.filter_cons]
    rw [show (regs.foldl (fun a r => add_listener a r.1 r.2) (add_listener ls r.1 r.2)) =
          register_all (add_listener ls r.1 r.2) regs from rfl, ih, lookup_add_listener]
    by_cases h : et = r.1
    · have hb : (r.1 == et) = true := beq_iff_eq.mpr h.symm
      simp [h, hb]
    · have hb : (r.1 == et) = false := beq_eq_false_iff_ne.mpr (fun hc => h hc.symm)
      simp [h, hb]

/-- The invoked-callback component of `trigger_event` is the stored list. -/
lemma trigger_event_fst {κ : Type} (ls : Listeners κ) (et : String) :
    (trigger_event ls et).1 = (List.lookup et ls).getD [] := by
  rcases h : List.lookup et ls with _ | cbs <;> simp [trigger_event, h]

/-- C7: after any sequence of `add_listener` registrations on a fresh
manager, `trigger_event` invokes exactly the callbacks registered for the
triggered type, sequentially in registration order (a duplicate
registration is invoked once per registration); a type with zero
registered listeners yields no invocation and only the logged warning
(no error — the function is total). -/
theorem trigger_event_registration_order {κ : Type} (regs : List (String × κ))
    (et : String) :
    (trigger_event (register_all ([] : Listeners κ) regs) et).1 =
      (regs.filter (fun r => r.1 == et)).map Prod.snd ∧
    (regs.filter (fun r => r.1 == et) = [] →
      trigger_event (register_all ([] : Listeners κ) regs) et = ([], true)) := by
  constructor
  · rw [trigger_event_fst]
    simpa using lookup_register_all regs [] et
  · intro h
    have hn : List.lookup et (register_all ([] : Listeners κ) regs) = none :=
      (lookup_register_all_none regs [] et).mpr ⟨by simp [List.lookup], h⟩
    simp [trigger_event, hn]

/-- Witness for C7: with registrations CHAT→1, MOVE→2, CHAT→3, triggering
"DATA" (zero listeners) invokes nothing and logs the warning. -/
theorem trigger_event_registration_order_witness :
    trigger_event (register_all ([] : Listeners Nat)
      [("CHAT", 1), ("MOVE", 2), ("CHAT", 3)]) "DATA" = ([], true) :=
  (trigger_event_registration_order [("CHAT", 1), ("MOVE", 2), ("CHAT", 3)] "DATA").2
    (by decide)

/-- Processing one datagram preserves distinctness of the candidate hosts:
a candidate is appended only when no existing candidate shares its host. -/
lemma listenStep_nodup (ls : List BroadcastServer) (d : String × String)
    (h : (ls.map BroadcastServer.host).Nodup) :
    ((listenStep ls d).map BroadcastServer.host).Nodup := by
  unfold listenStep
  split
  · next hc =>
    have hall : ∀ server ∈ ls, (server.host != d.2) = true :=
      List.all_eq_true.mp (Bool.and_elim_right hc)
    have hnot : d.2 ∉ ls.map BroadcastServer.host := by
      intro hmem
      obtain ⟨server, hs, hhost⟩ := List.mem_map.mp hmem
      exact bne_iff_ne.mp (hall server hs) hhost
    simp [List.nodup_append, h, hnot]
  · exact h

/-- A candidate host, once present, survives the rest of the window. -/
lemma mem_foldl_listenStep (dgrams : List (String × String))
    (ls : List BroadcastServer) (x : String)
    (h : x ∈ ls.map BroadcastServer.host) :
    x ∈ (dgrams.foldl listenStep ls).map BroadcastServer.host := by
  induction dgrams generalizing ls with
  | nil => exact h
  | cons d dgrams ih =>
    rw [List.foldl_cons]
    refine ih _ ?_
    unfold listenStep
    split
    · simpa using Or.inl h
    · exact h

/-- The distinct-hosts invariant holds across a whole window. -/
lemma foldl_listenStep_nodup (dgrams : List (String × String))
    (ls : List BroadcastServer) (h : (ls.map BroadcastServer.host).Nodup) :
    ((dgrams.foldl listenStep ls).map BroadcastServer.host).Nodup := by
  induction dgrams generalizing ls with
  | nil => exact h
  | cons d dgrams ih =>
    rw [List.foldl_cons]
    exact ih _ (listenStep_nodup ls d h)

/-- After a magic-matching datagram from host `d.2` is processed, that host
is among the candidates (it is either appended or was already present). -/
lemma mem_of_matching_dgram (dgrams : List (String × String))
    (ls : List BroadcastServer) (d : String × String) (hd : d ∈ dgrams)
    (hmagic : d.1.take 18 = BROADCAST_MESSAGE) :
    d.2 ∈ (dgrams.foldl listenStep ls).map BroadcastServer.host := by
  induction dgrams generalizing ls with
  | nil => cases hd
  | cons e es ih =>
    rcases List.mem_cons.mp hd with rfl | hd'
    · rw [List.foldl_cons]
      refine mem_foldl_listenStep es _ d.2 ?_
      unfold listenStep
      split
      · simp
      · next hc =>
        have : ¬ (ls.all (fun server => server.host != d.2) = true) := by
          intro hall
          exact hc (by simp [hmagic, hall])
        obtain ⟨server, hs, hfalse⟩ := by
          simpa using (List.all_eq_true.not.mp this)
        exact List.mem_map.mpr ⟨server, hs, hfalse⟩
    · rw [List.foldl_cons]
      exact ih _ hd'

/-- C8: over any sequence of datagrams received in one discovery window,
the candidate list built from an empty `broadcast_servers` list never holds
two candidates with the same host, and any host that sent at least one
magic-matching broadcast (in particular one that sent two or more) appears
as exactly one candidate. -/
theorem broadcast_dedup_by_host (dgrams : List (String × String)) (h : String) :
    ((listenRun dgrams).map BroadcastServer.host).Nodup ∧
    ((∃ d ∈ dgrams, d.1.take 18 = BROADCAST_MESSAGE ∧ d.2 = h) →
      List.count h ((listenRun dgrams).map BroadcastServer.host) = 1) := by
  have hnodup : ((listenRun dgrams).map BroadcastServer.host).Nodup :=
    foldl_listenStep_nodup dgrams [] (by simp)
  refine ⟨hnodup, ?_⟩
  rintro ⟨d, hd, hmagic, rfl⟩
  exact List.count_eq_one_of_mem hnodup (mem_of_matching_dgram dgrams [] d hd hmagic)

/-- Witness for C8: two magic broadcasts from the same host in one window
produce a single candidate for that host. -/
theorem broadcast_dedup_by_host_witness :
    List.count "192.168.0.7"
      ((listenRun [("[Tictactoe Server] 50000", "192.168.0.7"),
                   ("[Tictactoe Server] 50000", "192.168.0.7")]).map
        BroadcastServer.host) = 1 :=
  (broadcast_dedup_by_host
      [("[Tictactoe Server] 50000", "192.168.0.7"),
       ("[Tictactoe Server] 50000", "192.168.0.7")] "192.168.0.7").2
    ⟨("[Tictactoe Server] 50000", "192.168.0.7"), by decide, by decide, rfl⟩

/-- C9: when occupancy is not below `MAX_CLIENTS + 1`, the server's
discovery reply is exactly `{"connectable": False}` — it carries no
`session_port` key — and the client's discovery handler, whose failure
branch reads `data["session_port"]` outside any handler-local `try` block,
hits the missing-key error path (`KeyError`, modelled as `Except.error`)
on that reply, whatever the client's `potential_servers` list holds. -/
theorem negative_reply_session_port_keyerror (s : ServerState)
    (sid hint : String) (ps : List PotentialServer)
    (h : MAX_CLIENTS + 1 ≤ s.connected_clients.length) :
    discover s sid hint = (s, [Action.emit (.str NETWORK_DISCOVER)
      (.dict [("connectable", Value.bool false)]) sid]) ∧
    List.lookup "session_port"
      ([("connectable", Value.bool false)] : List (String × Value)) = none ∧
    client_discover ps [("connectable", Value.bool false)] =
      Except.error "session_port" := by
  refine ⟨?_, by decide, ?_⟩
  · simp [discover, Nat.not_lt.mpr h]
  · rfl

/-- Witness for C9: at occupancy 3 the negative reply is emitted and the
client handler errors on the missing `session_port` key. -/
theorem negative_reply_session_port_keyerror_witness :
    discover ⟨"game", 50000, ["a", "b", "c"]⟩ "probe" "10.0.0.5" =
      (⟨"game", 50000, ["a", "b", "c"]⟩, [Action.emit (.str NETWORK_DISCOVER)
        (.dict [("connectable", Value.bool false)]) "probe"]) ∧
    List.lookup "session_port"
      ([("connectable", Value.bool false)] : List (String × Value)) = none ∧
    client_discover [] [("connectable", Value.bool false)] =
      Except.error "session_port" :=
  negative_reply_session_port_keyerror ⟨"game", 50000, ["a", "b", "c"]⟩
    "probe" "10.0.0.5" [] (by decide)

end AsyncNetwork
